/-
  Verification of the BillCheck audit engine's frontend and its
  specified backend behaviour.

  Numeric amounts are modelled as rationals (ℚ); the enumerated
  lifecycle states (dispute status, batch status) are inductive types;
  check types, being string identifiers looked up in string-keyed
  tables by the UI, stay strings.

  Definitions marked `Modelled from the spec:` embed backend services
  (the FastAPI audit engine) whose source is not part of this
  repository snapshot; everything else is translated from the Next.js
  frontend sources.
-/
import Mathlib

namespace BillCheck

/-- Dispute lifecycle states (`pending, raised, acknowledged, resolved,
rejected`). -/
inductive DisputeStatus
  | pending
  | raised
  | acknowledged
  | resolved
  | rejected
deriving DecidableEq, Repr

/-- One detected billing violation, as carried by the frontend
(`DiscrepancyTable.tsx`, interface `Discrepancy`). -/
structure Discrepancy where
  id : Nat
  awb_number : String
  check_type : String
  description : String
  billed_value : Option ℚ
  expected_value : Option ℚ
  overcharge_amount : ℚ
  severity : String
  confidence_score : ℚ
  dispute_status : DisputeStatus
deriving DecidableEq, Repr

/-- Modelled from the spec: the backend Dispute Tracker's transition
table (missing from this snapshot) — `pending → raised → acknowledged →
resolved`, with `rejected` reachable from `raised` or `acknowledged`,
and no other transition permitted. -/
def validDisputeTransition : DisputeStatus → DisputeStatus → Bool
  | .pending, .raised => true
  | .raised, .acknowledged => true
  | .raised, .rejected => true
  | .acknowledged, .resolved => true
  | .acknowledged, .rejected => true
  | _, _ => false

/-- Modelled from the spec: the backend dispute-update endpoint rejects
an illegal transition as a data error. -/
def updateDisputeStatus (current target : DisputeStatus) :
    Except String DisputeStatus :=
  if validDisputeTransition current target then .ok target
  else .error "invalid transition"

/-- Applying an update request to a discrepancy record: on an
invalid-transition error the record is left unchanged. -/
def applyDisputeUpdate (d : Discrepancy) (target : DisputeStatus) :
    Discrepancy :=
  match updateDisputeStatus d.dispute_status target with
  | .ok s => { d with dispute_status := s }
  | .error _ => d

/-- Position of a status in the linear order
`pending → raised → acknowledged → resolved`; `rejected` sits outside
the linear chain. -/
def disputeRank : DisputeStatus → Option Nat
  | .pending => some 0
  | .raised => some 1
  | .acknowledged => some 2
  | .resolved => some 3
  | .rejected => none

/-- The five options the dispute dropdown offers unconditionally
(`DiscrepancyTable.tsx` line 81). -/
def disputeStatusOptions : List String :=
  ["pending", "raised", "acknowledged", "resolved", "rejected"]

/-- The wire identifier of a dispute status, as exchanged with the
backend and selected in the dropdown. -/
def DisputeStatus.toStr : DisputeStatus → String
  | .pending => "pending"
  | .raised => "raised"
  | .acknowledged => "acknowledged"
  | .resolved => "resolved"
  | .rejected => "rejected"

theorem applyDisputeUpdate_of_invalid (d : Discrepancy)
    (target : DisputeStatus)
    (h : validDisputeTransition d.dispute_status target = false) :
    applyDisputeUpdate d target = d := by
  unfold applyDisputeUpdate updateDisputeStatus
  rw [h]
  simp

/-- C2: a dispute transition whose target lies strictly backward in the
order pending → raised → acknowledged → resolved fails with an
invalid-transition error and leaves the discrepancy unchanged; in
particular resolved → raised always fails, while the UI dropdown still
offers all five statuses. -/
theorem dispute_backward_transition_fails (d : Discrepancy)
    (target : DisputeStatus) (i j : Nat)
    (hcur : disputeRank d.dispute_status = some i)
    (htar : disputeRank target = some j)
    (hlt : j < i) :
    updateDisputeStatus d.dispute_status target = .error "invalid transition" ∧
    applyDisputeUpdate d target = d ∧
    updateDisputeStatus .resolved .raised = .error "invalid transition" ∧
    disputeStatusOptions = DisputeStatus.toStr <$>
      [.pending, .raised, .acknowledged, .resolved, .rejected] := by
  have hvalid : validDisputeTransition d.dispute_status target = false := by
    cases h1 : d.dispute_status <;> cases h2 : target <;>
      rw [h1] at hcur <;> rw [h2] at htar <;>
      simp [disputeRank] at hcur htar <;>
      simp [validDisputeTransition] <;> omega
  refine ⟨?_, applyDisputeUpdate_of_invalid d target hvalid, rfl, rfl⟩
  unfold updateDisputeStatus
  rw [hvalid]
  simp

/-- C2 witness: the concrete transition resolved → raised on a concrete
discrepancy record. -/
theorem dispute_backward_transition_fails_witness :
    updateDisputeStatus DisputeStatus.resolved DisputeStatus.raised =
      .error "invalid transition" ∧
    applyDisputeUpdate
      ⟨1, "ABC001", "rate_deviation", "Base freight above contracted zone rate",
        some 250, some 80, 170, "high", 9/10, .resolved⟩ .raised =
      ⟨1, "ABC001", "rate_deviation", "Base freight above contracted zone rate",
        some 250, some 80, 170, "high", 9/10, .resolved⟩ ∧
    updateDisputeStatus .resolved .raised = .error "invalid transition" ∧
    disputeStatusOptions = DisputeStatus.toStr <$>
      [.pending, .raised, .acknowledged, .resolved, .rejected] :=
  dispute_backward_transition_fails
    ⟨1, "ABC001", "rate_deviation", "Base freight above contracted zone rate",
      some 250, some 80, 170, "high", 9/10, .resolved⟩
    .raised 3 1 rfl rfl (by omega)

/-- Whether a record is eligible for bulk-raise (its dispute is still
`pending`), the predicate both the frontend count and the backend
operation select on. -/
def isPendingDispute (d : Discrepancy) : Bool :=
  d.dispute_status = .pending

/-- The pending-dispute count the batch-detail page computes
(`batches/[id]/page.tsx` line 43). -/
def pendingCount (ds : List Discrepancy) : Nat :=
  (ds.filter isPendingDispute).length

/-- Modelled from the spec: the backend bulk-raise endpoint (missing
from this snapshot) transitions every discrepancy currently `pending`
in the batch to `raised`, leaves the rest untouched without error, and
returns the count of records transitioned. -/
def bulkRaise (ds : List Discrepancy) : List Discrepancy × Nat :=
  (ds.map (fun d =>
      if isPendingDispute d then { d with dispute_status := .raised } else d),
   (ds.filter isPendingDispute).length)

/-- C3: bulk-raise maps each discrepancy position-for-position —
pending ones become raised, all others are returned untouched with no
error — and the returned count is exactly the number of pending
discrepancies, the number the batch-detail page counted. -/
theorem bulkRaise_transitions_exactly_pending (ds : List Discrepancy) :
    (bulkRaise ds).2 = pendingCount ds ∧
    ∀ i : Nat, (bulkRaise ds).1[i]? = ds[i]?.map (fun d =>
      if isPendingDispute d then { d with dispute_status := .raised } else d) :=
  ⟨rfl, fun _ => List.getElem?_map ..⟩

/-- An alert row as carried by the frontend alerts page. -/
structure Alert where
  id : Nat
  alert_type : String
  severity : String
  title : String
  message : String
  batch_id : Option Nat
  provider_name : String
  is_read : Bool
  created_at : String
deriving DecidableEq, Repr

/-- Modelled from the spec: the backend Alert Generator (missing from
this snapshot) creates each alert with `is_read = false`. -/
def mkAlert (id : Nat) (alert_type severity title message : String)
    (batch_id : Option Nat) (provider_name created_at : String) : Alert :=
  ⟨id, alert_type, severity, title, message, batch_id, provider_name,
    false, created_at⟩

/-- Mark-read of one alert (`handleRead`, alerts page): sets `is_read`
of exactly the targeted alert to true. -/
def handleRead (id : Nat) (alerts : List Alert) : List Alert :=
  alerts.map (fun a => if a.id = id then { a with is_read := true } else a)

/-- Mark-all-read (`handleReadAll`, alerts page): sets `is_read` of
every alert to true. -/
def handleReadAll (alerts : List Alert) : List Alert :=
  alerts.map (fun a => { a with is_read := true })

/-- C9: alerts are created unread; mark-read rewrites exactly the one
targeted alert to read and leaves every other alert bit-identical;
mark-all-read rewrites every alert to read; and neither operation ever
turns `is_read` from true back to false (read-state is monotone). -/
theorem alert_read_state_monotone (id : Nat) (alerts : List Alert) :
    (∀ i t sev ttl msg b p c,
        (mkAlert i t sev ttl msg b p c).is_read = false) ∧
    (∀ i : Nat, (handleRead id alerts)[i]? = alerts[i]?.map (fun a =>
        if a.id = id then { a with is_read := true } else a)) ∧
    (∀ i : Nat, (handleReadAll alerts)[i]? =
        alerts[i]?.map (fun a => { a with is_read := true })) ∧
    (∀ (i : Nat) (a a' : Alert),
      alerts[i]? = some a → (handleRead id alerts)[i]? = some a' →
      a.is_read = true → a'.is_read = true) ∧
    (∀ a' ∈ handleReadAll alerts, a'.is_read = true) := by
  refine ⟨fun _ _ _ _ _ _ _ _ => rfl,
    fun _ => List.getElem?_map .., fun _ => List.getElem?_map .., ?_, ?_⟩
  · intro i a a' ha ha' hread
    rw [handleRead, List.getElem?_map, ha] at ha'
    by_cases hid : a.id = id
    · simp only [Option.map_some', hid, if_pos, Option.some.injEq] at ha'
      simp [← ha']
    · simp only [Option.map_some', if_neg hid, Option.some.injEq] at ha'
      rw [← ha']
      exact hread
  · intro a' ha'
    rcases List.mem_map.1 ha' with ⟨b, _, hb⟩
    simp [← hb]

/-- C9 witness: a freshly created alert is unread, and a concrete
already-read alert stays read across mark-read of another id. -/
theorem alert_read_state_monotone_witness :
    (mkAlert 1 "duplicate_awbs" "critical" "Duplicate AWBs"
      "AWB billed more than once" (some 2) "DelhiExpress" "2024-01-15").is_read
      = false ∧
    Alert.is_read
      ⟨5, "multiple_critical", "critical", "T", "M", none, "P", true, "2024-01-15"⟩
      = true := by
  have h := alert_read_state_monotone 1
    [⟨5, "multiple_critical", "critical", "T", "M", none, "P", true, "2024-01-15"⟩]
  exact ⟨h.1 1 "duplicate_awbs" "critical" "Duplicate AWBs"
      "AWB billed more than once" (some 2) "DelhiExpress" "2024-01-15",
    h.2.2.2.1 0 _ _ rfl rfl rfl⟩

/-- Batch lifecycle states (`pending, processing, completed, failed`). -/
inductive BatchStatus
  | pending
  | processing
  | completed
  | failed
deriving DecidableEq, Repr

/-- The wire identifier of a batch status, as fetched by the poller. -/
def BatchStatus.toStr : BatchStatus → String
  | .pending => "pending"
  | .processing => "processing"
  | .completed => "completed"
  | .failed => "failed"

/-- The terminal batch statuses. -/
def isTerminal : BatchStatus → Bool
  | .completed => true
  | .failed => true
  | _ => false

/-- Events the batch orchestrator reacts to. -/
inductive BatchEvent
  | startProcessing
  | complete
  | fail
deriving DecidableEq, Repr

/-- Modelled from the spec: the backend Batch Orchestrator's state
machine (missing from this snapshot) — `pending → processing →
completed` or `processing → failed`; a transition attempted from any
other state, in particular from a terminal one, is an idempotent
no-op. -/
def batchTransition : BatchStatus → BatchEvent → BatchStatus
  | .pending, .startProcessing => .processing
  | .processing, .complete => .completed
  | .processing, .fail => .failed
  | s, _ => s

/-- What one tick of the upload page's poller decides from the fetched
batch status (`pollBatch` in the upload page): on `completed` it stops
polling and fetches the discrepancy report, on `failed` it stops
polling, on anything else it keeps polling. -/
structure PollAction where
  stopPolling : Bool
  fetchReport : Bool
deriving DecidableEq, Repr

/-- The poller's branch on the fetched status string (`pollBatch`). -/
def pollBatchAction (status : String) : PollAction :=
  if status == "completed" then ⟨true, true⟩
  else if status == "failed" then ⟨true, false⟩
  else ⟨false, false⟩

/-- C4: completed and failed are the only terminal batch statuses — no
event moves a batch out of them — and the poller stops polling exactly
on those two fetched values, fetching the report exactly on completed
and continuing on every other status. -/
theorem terminal_statuses_and_poller (s : BatchStatus) (e : BatchEvent)
    (hs : isTerminal s = true) :
    batchTransition s e = s ∧
    (∀ st : String,
      ((pollBatchAction st).stopPolling = true ↔
        st = "completed" ∨ st = "failed") ∧
      ((pollBatchAction st).fetchReport = true ↔ st = "completed")) ∧
    (∀ b : BatchStatus,
      (pollBatchAction b.toStr).stopPolling = isTerminal b) := by
  refine ⟨?_, ?_, ?_⟩
  · cases s <;> simp [isTerminal] at hs <;> cases e <;> rfl
  · intro st
    constructor
    · unfold pollBatchAction
      by_cases h1 : st = "completed"
      · simp [h1]
      · by_cases h2 : st = "failed" <;> simp [h1, h2]
    · unfold pollBatchAction
      by_cases h1 : st = "completed"
      · simp [h1]
      · by_cases h2 : st = "failed" <;> simp [h1, h2]
  · intro b
    cases b <;> rfl

/-- C4 witness: a completed batch absorbs a further fail event, and the
poller facts hold. -/
theorem terminal_statuses_and_poller_witness :
    batchTransition .completed .fail = .completed ∧
    (∀ st : String,
      ((pollBatchAction st).stopPolling = true ↔
        st = "completed" ∨ st = "failed") ∧
      ((pollBatchAction st).fetchReport = true ↔ st = "completed")) ∧
    (∀ b : BatchStatus,
      (pollBatchAction b.toStr).stopPolling = isTerminal b) :=
  terminal_statuses_and_poller .completed .fail rfl

/-- One point of the Overview page's overcharge-trend chart
(`{ name, overcharge }`). -/
structure OverviewTrendPoint where
  name : String
  overcharge : ℤ
deriving DecidableEq, Repr

/-- The hard-coded demo curve of the Overview page (`DEMO_TREND`). -/
def DEMO_TREND : List OverviewTrendPoint :=
  [⟨"#1", 300⟩, ⟨"#2", 750⟩, ⟨"#3", 520⟩, ⟨"#4", 890⟩, ⟨"#5", 640⟩]

/-- One monthly analytics trend entry (`monthly_trends` row). -/
structure MonthlyTrend where
  month : String
  invoices : Nat
  overcharge : ℚ
  billed : ℚ
deriving DecidableEq, Repr

/-- A batch row as the Overview page consumes it: its id and the
summary's total overcharge (0 when the summary is null, per
`b.summary?.total_overcharge || 0`). -/
structure BatchRow where
  id : Nat
  summaryOvercharge : ℚ
deriving DecidableEq, Repr

/-- The Overview page keeps only the first six fetched batches
(`list.slice(0, 6)`). -/
def batchesLoaded (bs : List BatchRow) : List BatchRow :=
  bs.take 6

/-- The Overview page's monthly trend points (`monthlyTrend`): one per
`monthly_trends` entry, with a locale-formatted month name (the
formatter is a parameter — locale rendering is outside the model) and
the rounded overcharge. -/
def monthlyTrendOf (fmt : String → String) (ms : List MonthlyTrend) :
    List OverviewTrendPoint :=
  ms.map (fun m => ⟨fmt m.month, round m.overcharge⟩)

/-- The Overview page's per-batch trend points (`batchTrend`): loaded
batches reversed, labelled by id, with the rounded summary
overcharge. -/
def batchTrendOf (bs : List BatchRow) : List OverviewTrendPoint :=
  bs.reverse.map (fun b => ⟨"#" ++ toString b.id, round b.summaryOvercharge⟩)

/-- The Overview chart's data selection (`trendData`): the monthly
trend when it has more than one point, else the per-batch trend when it
has more than one point, else the demo curve. -/
def overviewTrendData (monthlyTrend batchTrend : List OverviewTrendPoint) :
    List OverviewTrendPoint :=
  if monthlyTrend.length > 1 then monthlyTrend
  else if batchTrend.length > 1 then batchTrend
  else DEMO_TREND

/-- C10: with fewer than two monthly entries and fewer than two loaded
batches the Overview chart shows the fabricated DEMO_TREND values 300,
750, 520, 890, 640; with two or more monthly entries it shows exactly
the monthly trend; otherwise with two or more loaded batches it shows
exactly the per-batch trend. -/
theorem overview_trend_fallback (fmt : String → String)
    (ms : List MonthlyTrend) (bs : List BatchRow) :
    (ms.length < 2 → (batchesLoaded bs).length < 2 →
      overviewTrendData (monthlyTrendOf fmt ms) (batchTrendOf (batchesLoaded bs))
        = DEMO_TREND ∧
      DEMO_TREND.map OverviewTrendPoint.overcharge = [300, 750, 520, 890, 640]) ∧
    (2 ≤ ms.length →
      overviewTrendData (monthlyTrendOf fmt ms) (batchTrendOf (batchesLoaded bs))
        = monthlyTrendOf fmt ms) ∧
    (ms.length < 2 → 2 ≤ (batchesLoaded bs).length →
      overviewTrendData (monthlyTrendOf fmt ms) (batchTrendOf (batchesLoaded bs))
        = batchTrendOf (batchesLoaded bs)) := by
  have hm : (monthlyTrendOf fmt ms).length = ms.length := List.length_map ..
  have hb : (batchTrendOf (batchesLoaded bs)).length =
      (batchesLoaded bs).length := by
    rw [batchTrendOf, List.length_map, List.length_reverse]
  refine ⟨?_, ?_, ?_⟩
  · intro h1 h2
    rw [overviewTrendData, if_neg (by omega), if_neg (by omega)]
    exact ⟨rfl, rfl⟩
  · intro h1
    rw [overviewTrendData, if_pos (by omega)]
  · intro h1 h2
    rw [overviewTrendData, if_neg (by omega), if_pos (by omega)]

/-- C10 witness: with one monthly entry and one loaded batch the chart
falls back to the demo curve. -/
theorem overview_trend_fallback_witness :
    overviewTrendData
      (monthlyTrendOf (fun s => s) [⟨"2024-01", 3, 500, 2000⟩])
      (batchTrendOf (batchesLoaded [⟨1, 500⟩])) = DEMO_TREND ∧
    DEMO_TREND.map OverviewTrendPoint.overcharge = [300, 750, 520, 890, 640] :=
  (overview_trend_fallback (fun s => s) [⟨"2024-01", 3, 500, 2000⟩]
    [⟨1, 500⟩]).1 (by decide) (by decide)

/-- Rounding to two decimal places, as JS `(…).toFixed(2)` renders a
number before the `+` prefix re-reads it. -/
def round2 (x : ℚ) : ℚ := (round (x * 100) : ℚ) / 100

/-- The spec's derived percentage:
`overcharge_rate = total_overcharge / total_billed × 100`. -/
def overchargeRateSpec (total_overcharge total_billed : ℚ) : ℚ :=
  total_overcharge / total_billed * 100

/-- The rate the analytics page renders per monthly trend entry
(`trendData` in the analytics page):
`Rate: m.billed>0 ? +((m.overcharge/m.billed)*100).toFixed(2) : 0`. -/
def analyticsTrendRate (m : MonthlyTrend) : ℚ :=
  if m.billed > 0 then round2 (m.overcharge / m.billed * 100) else 0

/-- C5: for a monthly trend entry with billed > 0 the rendered rate is
overcharge / billed × 100 rounded to two decimals — the definition of
overcharge_rate — and for billed = 0 it is 0. -/
theorem monthly_trend_rate_formula (m : MonthlyTrend) :
    (m.billed > 0 →
      analyticsTrendRate m =
        round2 (overchargeRateSpec m.overcharge m.billed)) ∧
    (m.billed = 0 → analyticsTrendRate m = 0) := by
  constructor
  · intro h
    rw [analyticsTrendRate, if_pos h, overchargeRateSpec]
  · intro h
    rw [analyticsTrendRate, if_neg (by rw [h]; exact lt_irrefl 0)]

/-- C5 witness: a concrete entry with billed 200 and overcharge 50
renders rate 25, i.e. the rounded spec percentage. -/
theorem monthly_trend_rate_formula_witness :
    (0 : ℚ) < 200 ∧
    analyticsTrendRate ⟨"2024-01", 3, 50, 200⟩ =
      round2 (overchargeRateSpec 50 200) ∧
    round2 (overchargeRateSpec 50 200) = 25 :=
  ⟨by norm_num,
    (monthly_trend_rate_formula ⟨"2024-01", 3, 50, 200⟩).1 (by norm_num),
    by norm_num [round2, overchargeRateSpec]⟩

/-- One aggregated `check_type_totals` row of the analytics payload. -/
structure CheckTypeTotal where
  check_type : String
  count : Nat
  overcharge : ℚ
deriving DecidableEq, Repr

/-- One `provider_scorecards` row of the analytics payload. -/
structure ProviderScorecard where
  provider : String
  batches : Nat
  invoices : Nat
  discrepancies : Nat
  overcharge : ℚ
deriving DecidableEq, Repr

/-- The analytics payload as the analytics and Overview pages consume
it. -/
structure Analytics where
  total_overcharge : ℚ
  total_invoices : Nat
  total_batches : Nat
  avg_overcharge_rate : ℚ
  check_type_totals : List CheckTypeTotal
  provider_scorecards : List ProviderScorecard
  monthly_trends : List MonthlyTrend
deriving DecidableEq, Repr

/-- The analytics page's violation total
(`check_type_totals.reduce((s,c)=>s+c.count,0)`). -/
def totalDisc (a : Analytics) : Nat :=
  (a.check_type_totals.map (·.count)).sum

/-- The per-invoice average, guarded by a positive denominator
(`avgPerInv` on the analytics and Overview pages). -/
def avgPerInv (a : Analytics) : ℚ :=
  if a.total_invoices > 0 then a.total_overcharge / a.total_invoices else 0

/-- The per-batch average, guarded by a positive denominator
(`avgPerBatch` on the analytics page). -/
def avgPerBatch (a : Analytics) : ℚ :=
  if a.total_batches > 0 then a.total_overcharge / a.total_batches else 0

/-- The hit rate, guarded by a positive denominator (`hitRate` on the
analytics page). -/
def hitRate (a : Analytics) : ℚ :=
  if a.total_invoices > 0 then (totalDisc a : ℚ) / a.total_invoices * 100
  else 0

/-- Modelled from the spec: the backend's `avg_overcharge_rate` (the
analytics roll-up is missing from this snapshot) — the mean of the
per-batch overcharge rates, defined as 0 when there are zero completed
batches. -/
def avgOverchargeRate (rates : List ℚ) : ℚ :=
  if rates.length = 0 then 0 else rates.sum / rates.length

/-- C6: every analytics average is total with the zero-denominator case
defined as 0 — avg_overcharge_rate over zero completed batches is 0,
and the per-invoice, per-batch and hit-rate figures are ratios only
under a positive-denominator guard and 0 otherwise. -/
theorem analytics_averages_total (a : Analytics) (rates : List ℚ) :
    avgOverchargeRate [] = 0 ∧
    (a.total_invoices = 0 → avgPerInv a = 0 ∧ hitRate a = 0) ∧
    (a.total_batches = 0 → avgPerBatch a = 0) ∧
    (0 < a.total_invoices →
      avgPerInv a = a.total_overcharge / a.total_invoices) ∧
    (0 < a.total_batches →
      avgPerBatch a = a.total_overcharge / a.total_batches) ∧
    (0 < rates.length →
      avgOverchargeRate rates = rates.sum / rates.length) := by
  refine ⟨rfl, ?_, ?_, ?_, ?_, ?_⟩
  · intro h
    exact ⟨by rw [avgPerInv, if_neg (by omega)],
      by rw [hitRate, if_neg (by omega)]⟩
  · intro h
    rw [avgPerBatch, if_neg (by omega)]
  · intro h
    rw [avgPerInv, if_pos h]
  · intro h
    rw [avgPerBatch, if_pos h]
  · intro h
    rw [avgOverchargeRate, if_neg (by omega)]

/-- C6 witness: an empty analytics payload yields 0 everywhere, and a
populated one yields the guarded ratios. -/
theorem analytics_averages_total_witness :
    avgOverchargeRate [] = 0 ∧
    (avgPerInv ⟨0, 0, 0, 0, [], [], []⟩ = 0 ∧
      hitRate ⟨0, 0, 0, 0, [], [], []⟩ = 0) ∧
    avgPerBatch ⟨0, 0, 0, 0, [], [], []⟩ = 0 ∧
    avgPerInv ⟨600, 3, 2, 12, [], [], []⟩ = 600 / 3 ∧
    avgPerBatch ⟨600, 3, 2, 12, [], [], []⟩ = 600 / 2 ∧
    avgOverchargeRate [10, 14] = (10 + 14 : ℚ) / 2 := by
  have h0 := analytics_averages_total ⟨0, 0, 0, 0, [], [], []⟩ []
  have h1 := analytics_averages_total ⟨600, 3, 2, 12, [], [], []⟩ [10, 14]
  refine ⟨h0.1, h0.2.1 rfl, h0.2.2.1 rfl, ?_, ?_, ?_⟩
  · have := h1.2.2.2.1 (by norm_num)
    simpa using this
  · have := h1.2.2.2.2.1 (by norm_num)
    simpa using this
  · have := h1.2.2.2.2.2 (by norm_num)
    simpa using this

/-- The ten enumerated check-type identifiers (spec §6, and the
backend's persisted strings, mirrored by the README's list of ten
checks). -/
def checkTypeIdentifiers : List String :=
  ["duplicate_awb", "weight_overcharge", "zone_mismatch", "rate_deviation",
   "cod_fee_mismatch", "rto_overcharge", "fuel_surcharge_mismatch",
   "non_contracted_surcharge", "gst_miscalculation",
   "arithmetic_total_mismatch"]

/-- The discrepancy table's check-label lookup
(`DiscrepancyTable.tsx`, `CHECK_LABELS`). -/
def CHECK_LABELS : List (String × String) :=
  [("duplicate_awb", "Duplicate AWB"),
   ("weight_overcharge", "Weight Overcharge"),
   ("zone_mismatch", "Zone Mismatch"),
   ("rate_deviation", "Rate Deviation"),
   ("cod_fee_mismatch", "COD Fee"),
   ("rto_overcharge", "RTO Overcharge"),
   ("fuel_surcharge_mismatch", "Fuel Surcharge"),
   ("non_contracted_surcharge", "Unlisted Charge"),
   ("gst_miscalculation", "GST Error"),
   ("arithmetic_total_mismatch", "Arithmetic Error")]

/-- The analytics page's check-label lookup (`CL` in the analytics
page source). -/
def CL_analytics : List (String × String) :=
  [("rate_deviation", "Rate Dev"),
   ("fuel_surcharge_mismatch", "Fuel Sur."),
   ("cod_fee_mismatch", "COD Fee"),
   ("rto_overcharge", "RTO"),
   ("non_contracted_surcharge", "Unlisted"),
   ("duplicate_awb", "Duplicate"),
   ("weight_overcharge", "Weight Pad")]

/-- The UI's label rendering `TABLE[check_type] || check_type`: the
table's entry when present, otherwise the raw identifier as
fallback. -/
def lookupLabel (table : List (String × String)) (k : String) : String :=
  match table.lookup k with
  | some v => v
  | none => k

/-- The denominator of the analytics page's "Checks Active" KPI, the
hard-coded `/ 6` in `` `${data.check_type_totals?.length??0} / 6` ``. -/
def checksActiveDenominator : Nat := 6

/-- C8 counterexample: `zone_mismatch` is one of the ten enumerated
check types, yet the analytics page's label table has no entry for it,
so the rendered label is the raw-identifier fallback; and the "Checks
Active" KPI divides by a hard-coded 6, not the size of the ten-element
set. -/
theorem check_labels_counterexample :
    "zone_mismatch" ∈ checkTypeIdentifiers ∧
    CL_analytics.lookup "zone_mismatch" = none ∧
    lookupLabel CL_analytics "zone_mismatch" = "zone_mismatch" ∧
    checksActiveDenominator ≠ checkTypeIdentifiers.length := by
  refine ⟨?_, rfl, rfl, ?_⟩ <;> decide

/-- C8 (amended): the DiscrepancyTable's CHECK_LABELS assigns a label
distinct from the raw identifier to each of the ten check types, so
discrepancy rows never render the fallback; but the analytics page's CL
table covers only seven of the ten — zone_mismatch, gst_miscalculation
and arithmetic_total_mismatch fall back to the raw identifier — and its
"Checks Active" denominator is the hard-coded 6 rather than 10. -/
theorem check_labels_coverage :
    checkTypeIdentifiers.length = 10 ∧
    (checkTypeIdentifiers.all
      (fun k => (CHECK_LABELS.lookup k).isSome)) = true ∧
    (checkTypeIdentifiers.all
      (fun k => lookupLabel CHECK_LABELS k != k)) = true ∧
    (checkTypeIdentifiers.filter
      (fun k => (CL_analytics.lookup k).isSome)).length = 7 ∧
    CL_analytics.lookup "zone_mismatch" = none ∧
    CL_analytics.lookup "gst_miscalculation" = none ∧
    CL_analytics.lookup "arithmetic_total_mismatch" = none ∧
    checksActiveDenominator = 6 := by
  refine ⟨rfl, ?_, ?_, rfl, rfl, rfl, rfl, rfl⟩ <;> decide

/-- The top-violation pick of the analytics page:
`top = data.check_type_totals?.[0]`, taken without re-sorting. -/
def analyticsTop (a : Analytics) : Option CheckTypeTotal :=
  a.check_type_totals[0]?

/-- Modelled from the spec: the backend analytics roll-up (missing from
this snapshot) emits `check_type_totals` sorted descending by summed
overcharge; modelled as insertion sort by the `overcharge` field. -/
def insertDesc (t : CheckTypeTotal) :
    List CheckTypeTotal → List CheckTypeTotal
  | [] => [t]
  | u :: us =>
    if u.overcharge ≤ t.overcharge then t :: u :: us
    else u :: insertDesc t us

/-- Modelled from the spec: descending-by-overcharge ordering of the
aggregated check-type totals. -/
def sortByOverchargeDesc (ts : List CheckTypeTotal) :
    List CheckTypeTotal :=
  ts.foldr insertDesc []

theorem mem_insertDesc (t u : CheckTypeTotal) (l : List CheckTypeTotal) :
    u ∈ insertDesc t l ↔ u = t ∨ u ∈ l := by
  induction l with
  | nil => simp [insertDesc]
  | cons v vs ih =>
    rw [insertDesc]
    by_cases h : v.overcharge ≤ t.overcharge
    · simp [h]
    · rw [if_neg h]
      simp only [List.mem_cons, ih]
      tauto

theorem pairwise_insertDesc (t : CheckTypeTotal) (l : List CheckTypeTotal)
    (hl : l.Pairwise (fun x y => y.overcharge ≤ x.overcharge)) :
    (insertDesc t l).Pairwise (fun x y => y.overcharge ≤ x.overcharge) := by
  induction l with
  | nil => simp [insertDesc]
  | cons v vs ih =>
    rw [insertDesc]
    rcases List.pairwise_cons.1 hl with ⟨hv, hvs⟩
    by_cases h : v.overcharge ≤ t.overcharge
    · rw [if_pos h]
      refine List.pairwise_cons.2 ⟨?_, hl⟩
      intro u hu
      rcases List.mem_cons.1 hu with hu | hu
      · exact hu ▸ h
      · exact le_trans (hv u hu) h
    · rw [if_neg h]
      refine List.pairwise_cons.2 ⟨?_, ih hvs⟩
      intro u hu
      rcases (mem_insertDesc t u vs).1 hu with hu | hu
      · exact hu ▸ le_of_lt (lt_of_not_le h)
      · exact hv u hu

theorem pairwise_sortByOverchargeDesc (ts : List CheckTypeTotal) :
    (sortByOverchargeDesc ts).Pairwise
      (fun x y => y.overcharge ≤ x.overcharge) := by
  induction ts with
  | nil => simp [sortByOverchargeDesc]
  | cons t ts ih => exact pairwise_insertDesc t _ ih

theorem mem_sortByOverchargeDesc (u : CheckTypeTotal)
    (ts : List CheckTypeTotal) (hu : u ∈ ts) :
    u ∈ sortByOverchargeDesc ts := by
  induction ts with
  | nil => cases hu
  | cons t ts ih =>
    rw [sortByOverchargeDesc, List.foldr_cons, mem_insertDesc]
    rcases List.mem_cons.1 hu with hu | hu
    · exact Or.inl hu
    · exact Or.inr (ih hu)

/-- C7: when the analytics page reads the first element of the
descending-sorted check_type_totals as the top violation, that element
carries the maximal summed overcharge over all aggregated check
types. -/
theorem analytics_top_is_max (a : Analytics) (ts : List CheckTypeTotal)
    (t : CheckTypeTotal)
    (hsort : a.check_type_totals = sortByOverchargeDesc ts)
    (htop : analyticsTop a = some t) :
    ∀ u ∈ ts, u.overcharge ≤ t.overcharge := by
  intro u hu
  rw [analyticsTop, hsort] at htop
  have hmem : u ∈ sortByOverchargeDesc ts := mem_sortByOverchargeDesc u ts hu
  have hpair := pairwise_sortByOverchargeDesc ts
  cases hs : sortByOverchargeDesc ts with
  | nil => rw [hs] at htop; simp at htop
  | cons h rest =>
    rw [hs] at htop
    simp only [List.getElem?_cons_zero, Option.some.injEq] at htop
    rw [hs] at hmem hpair
    rcases List.pairwise_cons.1 hpair with ⟨hhead, _⟩
    rcases List.mem_cons.1 hmem with hm | hm
    · rw [hm, htop]
    · exact htop ▸ hhead u hm

/-- C7 witness: a concrete two-element aggregation where the sorted
head is the duplicate_awb total with the larger overcharge. -/
theorem analytics_top_is_max_witness :
    sortByOverchargeDesc
      [⟨"rate_deviation", 2, 5⟩, ⟨"duplicate_awb", 1, 9⟩] =
      [⟨"duplicate_awb", 1, 9⟩, ⟨"rate_deviation", 2, 5⟩] ∧
    (⟨"rate_deviation", 2, 5⟩ : CheckTypeTotal).overcharge ≤
      (⟨"duplicate_awb", 1, 9⟩ : CheckTypeTotal).overcharge := by
  constructor
  · decide
  · exact analytics_top_is_max
      ⟨14, 6, 2, 10,
        sortByOverchargeDesc
          [⟨"rate_deviation", 2, 5⟩, ⟨"duplicate_awb", 1, 9⟩], [], []⟩
      [⟨"rate_deviation", 2, 5⟩, ⟨"duplicate_awb", 1, 9⟩]
      ⟨"duplicate_awb", 1, 9⟩ rfl (by decide)
      ⟨"rate_deviation", 2, 5⟩ (by decide)

/-- Modelled from the spec: the backend Batch Aggregator's
`summary.total_overcharge` (missing from this snapshot) — the sum of
`overcharge_amount` over all of the batch's discrepancies. -/
def summaryTotalOvercharge (ds : List Discrepancy) : ℚ :=
  (ds.map (·.overcharge_amount)).sum

/-- Modelled from the spec: the key set of the summary's
`check_type_counts` — each check type occurring among the batch's
discrepancies, once. -/
def summaryCheckTypeKeys (ds : List Discrepancy) : List String :=
  (ds.map (·.check_type)).dedup

/-- Modelled from the spec: the summary's `check_type_counts` mapping
(check type → number of the batch's discrepancies of that type). -/
def summaryCheckTypeCounts (ds : List Discrepancy) : List (String × Nat) :=
  (summaryCheckTypeKeys ds).map
    (fun k => (k, (ds.filter (fun d => d.check_type == k)).length))

/-- The batch-detail page's per-check-type overcharge fold (`checkData`
in `batches/[id]/page.tsx`):
`discrepancies.filter(d=>d.check_type===k).reduce((sum,d)=>sum+d.overcharge_amount,0)`. -/
def checkDataOvercharge (ds : List Discrepancy) (k : String) : ℚ :=
  ((ds.filter (fun d => d.check_type == k)).map (·.overcharge_amount)).sum

/-- One bar of the batch-detail page's "Overcharge by Type" chart. -/
structure CheckDatum where
  name : String
  overcharge : ℚ
deriving DecidableEq, Repr

/-- The batch-detail page's `checkData`: one entry per key of the
summary's `check_type_counts`, named with underscores replaced by
spaces, carrying the fold above. -/
def checkData (counts : List (String × Nat)) (ds : List Discrepancy) :
    List CheckDatum :=
  counts.map (fun kv => ⟨kv.1.replace "_" " ", checkDataOvercharge ds kv.1⟩)

theorem checkDataOvercharge_cons (d : Discrepancy) (tl : List Discrepancy)
    (k : String) :
    checkDataOvercharge (d :: tl) k =
      (if d.check_type = k then d.overcharge_amount else 0) +
        checkDataOvercharge tl k := by
  by_cases h : d.check_type = k
  · simp [checkDataOvercharge, List.filter_cons, h]
  · simp [checkDataOvercharge, List.filter_cons, h]

theorem sum_map_add_q (u v : String → ℚ) (ks : List String) :
    (ks.map (fun k => u k + v k)).sum = (ks.map u).sum + (ks.map v).sum := by
  induction ks with
  | nil => simp
  | cons k ks ih =>
    simp only [List.map_cons, List.sum_cons, ih]
    ring

theorem sum_map_ite_eq_of_nodup (ks : List String) (x : String) (c : ℚ)
    (hnd : ks.Nodup) (hx : x ∈ ks) :
    (ks.map (fun k => if x = k then c else 0)).sum = c := by
  induction ks with
  | nil => cases hx
  | cons k ks ih =>
    rcases List.nodup_cons.1 hnd with ⟨hk, hnd'⟩
    simp only [List.map_cons, List.sum_cons]
    rcases List.mem_cons.1 hx with hx | hx
    · rw [if_pos hx]
      have hzero : (ks.map (fun k' => if x = k' then c else 0)).sum = 0 := by
        rw [List.sum_eq_zero]
        intro q hq
        rcases List.mem_map.1 hq with ⟨k', hk', hk'q⟩
        have hne : x ≠ k' := by
          intro h
          exact hk (by rw [← hx, h]; exact hk')
        rw [← hk'q, if_neg hne]
      rw [hzero, add_zero]
    · have hne : x ≠ k := fun h => hk (h ▸ hx)
      rw [if_neg hne, zero_add]
      exact ih hnd' hx

theorem fiber_sum_eq_total (ks : List String) (ds : List Discrepancy)
    (hnd : ks.Nodup) (hcov : ∀ d ∈ ds, d.check_type ∈ ks) :
    (ks.map (fun k => checkDataOvercharge ds k)).sum =
      summaryTotalOvercharge ds := by
  induction ds with
  | nil =>
    rw [summaryTotalOvercharge]
    simp [checkDataOvercharge]
  | cons d tl ih =>
    have hcov' : ∀ e ∈ tl, e.check_type ∈ ks :=
      fun e he => hcov e (List.mem_cons_of_mem d he)
    have hstep : (ks.map (fun k => checkDataOvercharge (d :: tl) k)).sum =
        (ks.map (fun k => if d.check_type = k then d.overcharge_amount
          else 0)).sum +
        (ks.map (fun k => checkDataOvercharge tl k)).sum := by
      simp only [checkDataOvercharge_cons]
      exact sum_map_add_q _ _ ks
    rw [hstep,
      sum_map_ite_eq_of_nodup ks d.check_type d.overcharge_amount hnd
        (hcov d (List.mem_cons_self d tl)),
      ih hcov', summaryTotalOvercharge, summaryTotalOvercharge]
    simp

/-- C1: the summary's total_overcharge is the sum of overcharge_amount
over all of the batch's discrepancies, and consequently the
per-check-type overcharge sums that the batch-detail page folds over
the discrepancy list — one per key of check_type_counts — add up to
exactly that displayed total. -/
theorem check_type_folds_sum_to_total (ds : List Discrepancy) :
    summaryTotalOvercharge ds = (ds.map (·.overcharge_amount)).sum ∧
    ((checkData (summaryCheckTypeCounts ds) ds).map (·.overcharge)).sum =
      summaryTotalOvercharge ds := by
  refine ⟨rfl, ?_⟩
  have hmaps :
      (checkData (summaryCheckTypeCounts ds) ds).map CheckDatum.overcharge =
      (summaryCheckTypeKeys ds).map (fun k => checkDataOvercharge ds k) := by
    rw [checkData, summaryCheckTypeCounts, List.map_map, List.map_map]
    rfl
  rw [hmaps]
  exact fiber_sum_eq_total (summaryCheckTypeKeys ds) ds
    (List.nodup_dedup _)
    (fun d hd => List.mem_dedup.2 (List.mem_map_of_mem _ hd))

end BillCheck
